import Mathlib

/-! Verification of the SVI (switched virtual interface) reconciliation core of
the `opi-evpn-bridge` repository, as a shallow embedding in Lean.

The embedding mirrors the Go source:
* `pkg/svi/common.go` — `resourceIDToFullName`, `extractPagination`,
  `limitPagination`, the `tenantbridgeName` constant and the test fixtures;
* the gRPC server file (package `evpn`) with `CreateSvi`, `GetSvi` and
  `DeleteSvi`.

External collaborators (required-field validation, resource-name syntax
validation, the user-settable ID check, system ID generation and the netlink
kernel interface) are modelled as an explicit environment `Env` of oracles:
each kernel call either succeeds or fails as the oracle dictates, and every
kernel call an operation issues is recorded in an output trace, so claims
about which calls are issued and in which order can be stated exactly.
Machine-level details kept from the source: the `uint16` truncation of the
VLAN id in `BridgeVlanAdd`, the big-endian 4-byte decoding of an IPv4
gateway address, the fixed `(pvid, untagged, self, master)` flag vector
`(false, false, true, false)`, and Go's `path.Base` semantics.
-/

namespace OpiEvpn

/-- Operational status enum of an SVI (`pb.SVIOperStatus`). -/
inductive SviOperStatus where
  | unspecified
  | up
  | down
  deriving DecidableEq, Repr

/-- An IPv4 gateway prefix as carried in `pb.SviSpec.GwIpPrefix`:
the `V4Addr` 32-bit value and the mask length `Len`. -/
structure IpPfx where
  v4Addr : Nat
  len : Nat
  deriving DecidableEq, Repr

/-- Model of `pb.SviSpec`: the desired-state description of an SVI. -/
structure SviSpec where
  logicalBridge : String
  vrf : String
  macAddress : List Nat
  gwIpPrefixes : List IpPfx
  enableBgp : Bool
  remoteAs : Nat
  deriving DecidableEq, Repr

/-- Model of `pb.SviStatus`. -/
structure SviStatus where
  operStatus : SviOperStatus
  deriving DecidableEq, Repr

/-- Model of `pb.Svi`: name, spec and (optional, pointer-valued in Go) status. -/
structure Svi where
  name : String
  spec : SviSpec
  status : Option SviStatus
  deriving DecidableEq, Repr

/-- Model of `pb.LogicalBridgeSpec` (only the fields the SVI core reads). -/
structure LogicalBridgeSpec where
  vlanId : Nat
  vni : Option Nat
  deriving DecidableEq, Repr

/-- Model of `pb.LogicalBridge`. -/
structure LogicalBridge where
  name : String
  spec : LogicalBridgeSpec
  deriving DecidableEq, Repr

/-- Model of `pb.VrfSpec` (only the fields the SVI core reads). -/
structure VrfSpec where
  vni : Option Nat
  deriving DecidableEq, Repr

/-- Model of `pb.Vrf`. -/
structure Vrf where
  name : String
  spec : VrfSpec
  deriving DecidableEq, Repr

/-- Go map lookup `m[k]` on the association-list model of the registry maps. -/
def mapLookup {α : Type} (m : List (String × α)) (k : String) : Option α :=
  match m with
  | [] => none
  | (k2, v) :: rest => if k2 = k then some v else mapLookup rest k

/-- Go `delete(m, k)`. -/
def mapRemove {α : Type} (m : List (String × α)) (k : String) : List (String × α) :=
  match m with
  | [] => []
  | (k2, v) :: rest => if k2 = k then mapRemove rest k else (k2, v) :: mapRemove rest k

/-- Go map store `m[k] = v` (overwrite semantics). -/
def mapInsert {α : Type} (m : List (String × α)) (k : String) (v : α) : List (String × α) :=
  (k, v) :: mapRemove m k

/-- The `Server` state: the three in-memory registries `Svis`, `Bridges`, `Vrfs`. -/
structure Server where
  svis : List (String × Svi)
  bridges : List (String × LogicalBridge)
  vrfs : List (String × Vrf)
  deriving DecidableEq, Repr

/-- Model of `pb.CreateSviRequest`: optional user-supplied short ID and the desired SVI. -/
structure CreateSviRequest where
  sviId : String
  svi : Svi
  deriving DecidableEq, Repr

/-- Model of `pb.GetSviRequest`. -/
structure GetSviRequest where
  name : String
  deriving DecidableEq, Repr

/-- Model of `pb.DeleteSviRequest`. -/
structure DeleteSviRequest where
  name : String
  allowMissing : Bool
  deriving DecidableEq, Repr

/-- The calls of the netlink kernel-configuration interface the SVI core can
issue.  `linkAdd` is the interface's link-creation call (present in the
interface vocabulary so its absence from a trace can be stated);
`bridgeVlanAdd` carries the flag vector `(pvid, untagged, self, master)`. -/
inductive KernelCall where
  | linkByName (name : String)
  | bridgeVlanAdd (dev : String) (vid : Nat) (pvid untagged self master : Bool)
  | linkAdd (name : String) (parent : String) (vlanId : Nat)
  | linkSetHardwareAddr (dev : String) (mac : List Nat)
  | addrAdd (dev : String) (ipBytes : List Nat) (maskLen : Nat)
  | linkSetMaster (dev : String) (master : String)
  | linkSetUp (dev : String)
  | linkSetDown (dev : String)
  | linkDel (dev : String)
  deriving DecidableEq, Repr

/-- A kernel call that mutates kernel state (everything except the
`LinkByName` lookup). -/
def KernelCall.isMutation : KernelCall → Bool
  | .linkByName _ => false
  | _ => true

/-- Recognises the link-creation call. -/
def KernelCall.isLinkAdd : KernelCall → Bool
  | .linkAdd _ _ _ => true
  | _ => false

/-- Errors surfaced by the handlers, classified by gRPC status code as the
source produces them: `notFound` from the `status.Errorf(codes.NotFound, ...)`
sites, `invalidArgument` from the external validators, `kernelFail` for a
netlink call whose raw error is returned unwrapped. -/
inductive Err where
  | notFound (key : String)
  | invalidArgument (what : String)
  | kernelFail (call : KernelCall)
  deriving DecidableEq, Repr

/-- The environment of external collaborators: the outcome of
`fieldbehavior.ValidateRequiredFields` for the request at hand, the
`resourceid.ValidateUserSettable` and `resourcename.Validate` predicates,
the token produced by `resourceid.NewSystemGenerated()`, and the kernel
oracle deciding which netlink calls succeed. -/
structure Env where
  requiredOk : Bool
  settable : String → Bool
  validName : String → Bool
  sysGenId : String
  kernelOk : KernelCall → Bool

/-- The `tenantbridgeName` constant from `common.go`. -/
def tenantbridgeName : String := "br-tenant"

/-- Embedding of `resourceIDToFullName` from `pkg/svi/common.go`: the collection
argument is discarded (`_ string` in the source) and the produced name is
always under the `svis` collection. -/
def resourceIDToFullName (_collection : String) (resourceID : String) : String :=
  "//network.opiproject.org/svis/" ++ resourceID

/-- Splits a character list at `/` (helper for `pathBase`). -/
def splitSlash : List Char → List (List Char)
  | [] => [[]]
  | c :: rest =>
    let r := splitSlash rest
    if c = '/' then [] :: r
    else
      match r with
      | [] => [[c]]
      | h :: t => (c :: h) :: t

/-- Go's `path.Base`: last element of the path, trailing slashes removed;
`"."` for the empty path, `"/"` for an all-slash path. -/
def pathBase (s : String) : String :=
  if s.data = [] then "."
  else
    match ((splitSlash s.data).filter (fun seg => !seg.isEmpty)).getLast? with
    | none => "/"
    | some seg => String.mk seg

/-- The big-endian 4-byte decomposition `binary.BigEndian.PutUint32`
performs on an IPv4 address value (only IPv4 is decoded by the source). -/
def ipv4Bytes (n : Nat) : List Nat :=
  [n / 16777216 % 256, n / 65536 % 256, n / 256 % 256, n % 256]

/-- The (zero or one) MAC-assignment calls `CreateSvi` issues: one
`LinkSetHardwareAddr` exactly when a hardware address was supplied. -/
def macCalls (rid : String) (mac : List Nat) : List KernelCall :=
  if mac ≠ [] then [KernelCall.linkSetHardwareAddr rid mac] else []

/-- The `netlink.AddrAdd` loop of `CreateSvi`: one address-assignment call
per gateway prefix, aborting at the first failure.  Returns the outcome and
the issued calls in order. -/
def addrLoop (env : Env) (rid : String) : List IpPfx → Except Err Unit × List KernelCall
  | [] => (.ok (), [])
  | g :: gs =>
    let c := KernelCall.addrAdd rid (ipv4Bytes g.v4Addr) g.len
    if env.kernelOk c then
      let r := addrLoop env rid gs
      (r.1, c :: r.2)
    else (.error (.kernelFail c), [c])

/-- The kernel-facing part of `CreateSvi`, entered when the canonical name is
not yet in the registry (`svi` already carries the canonical name, `rid` the
short resource ID).  Mirrors the source line by line: tenant-bridge lookup,
bridge-name validation, bridge registry lookup, `BridgeVlanAdd` with the
`uint16`-truncated VLAN id and flags `(false, false, true, false)`,
construction of the VLAN sub-interface descriptor (the source issues no
`LinkAdd` kernel call for it), optional MAC assignment, the gateway-address
loop, VRF-name validation, VRF registry lookup, kernel lookup of the VRF
device by `path.Base(vrf.Name)`, master attachment, and link-up; on success
the response is the clone of the input SVI with status UP. -/
def createNew (env : Env) (s : Server) (svi : Svi) (rid : String) :
    Except Err Svi × List KernelCall :=
  let c1 := KernelCall.linkByName tenantbridgeName
  if env.kernelOk c1 = false then (.error (.notFound tenantbridgeName), [c1])
  else if env.validName svi.spec.logicalBridge = false then
    (.error (.invalidArgument svi.spec.logicalBridge), [c1])
  else
    match mapLookup s.bridges svi.spec.logicalBridge with
    | none => (.error (.notFound svi.spec.logicalBridge), [c1])
    | some bridgeObject =>
      let vid := bridgeObject.spec.vlanId % 65536
      let c2 := KernelCall.bridgeVlanAdd tenantbridgeName vid false false true false
      if env.kernelOk c2 = false then (.error (.kernelFail c2), [c1, c2])
      else
        let mc := macCalls rid svi.spec.macAddress
        if svi.spec.macAddress ≠ [] ∧
            env.kernelOk (KernelCall.linkSetHardwareAddr rid svi.spec.macAddress) = false then
          (.error (.kernelFail (KernelCall.linkSetHardwareAddr rid svi.spec.macAddress)),
           [c1, c2] ++ mc)
        else
          match addrLoop env rid svi.spec.gwIpPrefixes with
          | (.error e, tra) => (.error e, [c1, c2] ++ mc ++ tra)
          | (.ok _, tra) =>
            if env.validName svi.spec.vrf = false then
              (.error (.invalidArgument svi.spec.vrf), [c1, c2] ++ mc ++ tra)
            else
              match mapLookup s.vrfs svi.spec.vrf with
              | none => (.error (.notFound svi.spec.vrf), [c1, c2] ++ mc ++ tra)
              | some vrf =>
                let c3 := KernelCall.linkByName (pathBase vrf.name)
                if env.kernelOk c3 = false then
                  (.error (.notFound vrf.name), [c1, c2] ++ mc ++ tra ++ [c3])
                else
                  let c4 := KernelCall.linkSetMaster rid (pathBase vrf.name)
                  if env.kernelOk c4 = false then
                    (.error (.kernelFail c4), [c1, c2] ++ mc ++ tra ++ [c3, c4])
                  else
                    let c5 := KernelCall.linkSetUp rid
                    if env.kernelOk c5 = false then
                      (.error (.kernelFail c5), [c1, c2] ++ mc ++ tra ++ [c3, c4, c5])
                    else
                      (.ok { svi with status := some { operStatus := SviOperStatus.up } },
                       [c1, c2] ++ mc ++ tra ++ [c3, c4, c5])

/-- The short resource ID `CreateSvi` resolves for a request: the
user-supplied ID when present, else the system-generated one. -/
def createRid (env : Env) (req : CreateSviRequest) : String :=
  if req.sviId = "" then env.sysGenId else req.sviId

/-- The canonical name `CreateSvi` computes for a request: the resolved
short ID passed through `resourceIDToFullName`. -/
def canonicalName (env : Env) (req : CreateSviRequest) : String :=
  resourceIDToFullName "svis" (createRid env req)

/-- Embedding of `CreateSvi`: required-field check, identity resolution (system-generated
or validated user-settable ID), canonical-name computation, idempotent early
return when the name is already registered, then the kernel sequence of
`createNew`; only on its success is the response stored in `Svis`.  Returns
the result, the updated server and the kernel-call trace. -/
def CreateSvi (env : Env) (s : Server) (req : CreateSviRequest) :
    Except Err Svi × Server × List KernelCall :=
  if env.requiredOk = false then (.error (.invalidArgument "required fields"), s, [])
  else if req.sviId ≠ "" ∧ env.settable req.sviId = false then
    (.error (.invalidArgument req.sviId), s, [])
  else
    match mapLookup s.svis (canonicalName env req) with
    | some obj => (.ok obj, s, [])
    | none =>
      match createNew env s { req.svi with name := canonicalName env req }
          (createRid env req) with
      | (.error e, tr) => (.error e, s, tr)
      | (.ok resp, tr) =>
        (.ok resp, { s with svis := mapInsert s.svis (canonicalName env req) resp }, tr)

/-- Embedding of `GetSvi`: required-field and name validation, registry lookup, then the
consistency re-check that the backing kernel link (by `path.Base` of the
stored name) still exists; on success a fresh `Svi` is built carrying only
the stored MAC address, BGP flag and remote AS, with status UP.  The
source never writes the registry, so the server is returned unchanged. -/
def GetSvi (env : Env) (s : Server) (req : GetSviRequest) :
    Except Err Svi × Server × List KernelCall :=
  if env.requiredOk = false then (.error (.invalidArgument "required fields"), s, [])
  else if env.validName req.name = false then (.error (.invalidArgument req.name), s, [])
  else
    match mapLookup s.svis req.name with
    | none => (.error (.notFound req.name), s, [])
    | some obj =>
      let rid := pathBase obj.name
      if env.kernelOk (KernelCall.linkByName rid) = false then
        (.error (.notFound rid), s, [KernelCall.linkByName rid])
      else
        (.ok { name := req.name,
               spec := { logicalBridge := "", vrf := "",
                         macAddress := obj.spec.macAddress,
                         gwIpPrefixes := [],
                         enableBgp := obj.spec.enableBgp,
                         remoteAs := obj.spec.remoteAs },
               status := some { operStatus := SviOperStatus.up } },
         s, [KernelCall.linkByName rid])

/-- Embedding of `DeleteSvi`: required-field and name validation, registry lookup (an
absent name succeeds exactly when `allowMissing` is set), kernel link lookup
by `path.Base` of the stored name, link-down, link-delete — in that order —
and only after both kernel mutations succeed is the entry removed from
`Svis`. -/
def DeleteSvi (env : Env) (s : Server) (req : DeleteSviRequest) :
    Except Err Unit × Server × List KernelCall :=
  if env.requiredOk = false then (.error (.invalidArgument "required fields"), s, [])
  else if env.validName req.name = false then (.error (.invalidArgument req.name), s, [])
  else
    match mapLookup s.svis req.name with
    | none =>
      if req.allowMissing then (.ok (), s, [])
      else (.error (.notFound req.name), s, [])
    | some obj =>
      let rid := pathBase obj.name
      let c1 := KernelCall.linkByName rid
      if env.kernelOk c1 = false then (.error (.notFound rid), s, [c1])
      else
        let c2 := KernelCall.linkSetDown rid
        if env.kernelOk c2 = false then (.error (.kernelFail c2), s, [c1, c2])
        else
          let c3 := KernelCall.linkDel rid
          if env.kernelOk c3 = false then (.error (.kernelFail c3), s, [c1, c2, c3])
          else (.ok (), { s with svis := mapRemove s.svis obj.name }, [c1, c2, c3])

/-- Embedding of `extractPagination` from `common.go`: size clamping (negative rejected,
zero defaulted to 50, capped at 250) and opaque-token offset lookup. -/
def extractPagination (pageSize : Int) (pageToken : String)
    (pagination : List (String × Int)) : Except Err (Int × Int) :=
  if pageSize < 0 then .error (.invalidArgument "negative PageSize is not allowed")
  else
    let size : Int := if pageSize = 0 then 50 else if pageSize > 250 then 250 else pageSize
    if pageToken = "" then .ok (size, 0)
    else
      match mapLookup pagination pageToken with
      | none => .error (.notFound pageToken)
      | some off => .ok (size, off)

/-- Go's slice expression `xs[lo:hi]`: defined exactly when
`0 ≤ lo ≤ hi ≤ len`, otherwise the program panics (`none`). -/
def goSlice {α : Type} (xs : List α) (lo hi : Int) : Option (List α) :=
  if 0 ≤ lo ∧ lo ≤ hi ∧ hi ≤ (xs.length : Int) then
    some ((xs.take hi.toNat).drop lo.toNat)
  else none

/-- Embedding of `limitPagination` from `common.go`: `end := offset + size`, clamped to
the list length with `hasMoreElements` reporting whether clamping occurred,
then the Go slice `result[offset:end]` (a panic is `none`). -/
def limitPagination {α : Type} (result : List α) (offset size : Int) :
    Option (List α × Bool) :=
  let e : Int := offset + size
  let hasMoreElements := decide (e < (result.length : Int))
  let e2 : Int := if e < (result.length : Int) then e else (result.length : Int)
  match goSlice result offset e2 with
  | none => none
  | some ys => some (ys, hasMoreElements)

/-! Concrete fixtures.

Mirroring the test fixtures of `common.go` (`opi-bridge9` with VLAN 22 and
VNI 11, `opi-vrf8` with VNI 1000), with an SVI request as in the spec's
example scenario (`svi0`, gateway `10.0.0.1/24`). -/

/-- Environment in which every validator and every kernel call succeeds. -/
def envAll : Env :=
  { requiredOk := true, settable := fun _ => true, validName := fun _ => true,
    sysGenId := "opi-sysgen0", kernelOk := fun _ => true }

/-- The `testLogicalBridgeName` fixture (built, as in the source, through
`resourceIDToFullName "bridges"`, which discards the collection). -/
def testLogicalBridgeName : String := resourceIDToFullName "bridges" "opi-bridge9"

/-- The `testLogicalBridge` fixture: VLAN 22, VNI 11. -/
def testLogicalBridge : LogicalBridge :=
  { name := testLogicalBridgeName, spec := { vlanId := 22, vni := some 11 } }

/-- The `testVrfName` fixture. -/
def testVrfName : String := resourceIDToFullName "vrfs" "opi-vrf8"

/-- The `testVrf` fixture: VNI 1000. -/
def testVrf : Vrf := { name := testVrfName, spec := { vni := some 1000 } }

/-- A desired SVI spec referencing the two fixtures, with a MAC address,
one IPv4 gateway prefix `10.0.0.1/24`, BGP enabled and remote AS 65000. -/
def testSviSpec : SviSpec :=
  { logicalBridge := testLogicalBridgeName, vrf := testVrfName,
    macAddress := [170, 187, 204, 0, 0, 65],
    gwIpPrefixes := [{ v4Addr := 167772161, len := 24 }],
    enableBgp := true, remoteAs := 65000 }

/-- A create request with the user-supplied short ID `svi0`. -/
def testCreateReq : CreateSviRequest :=
  { sviId := "svi0", svi := { name := "", spec := testSviSpec, status := none } }

/-- Server holding the bridge and VRF fixtures and no SVIs. -/
def testServer : Server :=
  { svis := [], bridges := [(testLogicalBridgeName, testLogicalBridge)],
    vrfs := [(testVrfName, testVrf)] }

/-- The canonical name of the `svi0` request. -/
def testSviName : String := "//network.opiproject.org/svis/svi0"

/-- The object a successful create stores and returns for the request. -/
def testSviObj : Svi :=
  { name := testSviName, spec := testSviSpec,
    status := some { operStatus := SviOperStatus.up } }

/-- The kernel-call trace of the successful create of `svi0`. -/
def testTrace : List KernelCall :=
  [KernelCall.linkByName "br-tenant",
   KernelCall.bridgeVlanAdd "br-tenant" 22 false false true false,
   KernelCall.linkSetHardwareAddr "svi0" [170, 187, 204, 0, 0, 65],
   KernelCall.addrAdd "svi0" [10, 0, 0, 1] 24,
   KernelCall.linkByName "opi-vrf8",
   KernelCall.linkSetMaster "svi0" "opi-vrf8",
   KernelCall.linkSetUp "svi0"]

/-- The server after the successful create of `svi0`. -/
def testServer1 : Server :=
  { testServer with svis := [(testSviName, testSviObj)] }

/-- Copy of `testServer` with the VRF registry emptied. -/
def serverNoVrf : Server := { testServer with vrfs := [] }

/-- Copy of `testServer` with the bridge registry emptied. -/
def serverNoBridge : Server := { testServer with bridges := [] }

/-- Environment in which the kernel link `svi0` does not exist but every
other call succeeds. -/
def envNoSviLink : Env :=
  { envAll with
    kernelOk := fun c =>
      match c with
      | KernelCall.linkByName n => decide (n ≠ "svi0")
      | _ => true }

/-- Copy of `envAll` with the required-fields validation failing. -/
def envReqFail : Env := { envAll with requiredOk := false }

/-! Helper lemmas. -/

theorem mapLookup_insert {α : Type} (m : List (String × α)) (k : String) (v : α) :
    mapLookup (mapInsert m k v) k = some v := by
  simp [mapInsert, mapLookup]

/-- A successful `createNew` returns exactly the input SVI with status UP. -/
theorem createNew_ok (env : Env) (s : Server) (svi : Svi) (rid : String)
    (resp : Svi) (tr : List KernelCall)
    (h : createNew env s svi rid = (.ok resp, tr)) :
    resp = { svi with status := some { operStatus := SviOperStatus.up } } := by
  simp only [createNew] at h
  repeat' split at h
  all_goals simp_all

/-- Characterisation of a successful `CreateSvi`: the validations passed and
either the idempotent early return fired (object already registered, server
untouched, no kernel call) or the name was fresh and the stored-and-returned
object is the request's SVI renamed to the canonical name with status UP. -/
theorem createSvi_ok_cases (env : Env) (s : Server) (req : CreateSviRequest)
    (obj : Svi) (s1 : Server) (tr : List KernelCall)
    (h : CreateSvi env s req = (.ok obj, s1, tr)) :
    env.requiredOk = true ∧ ¬(req.sviId ≠ "" ∧ env.settable req.sviId = false) ∧
    ((mapLookup s.svis (canonicalName env req) = some obj ∧ s1 = s ∧ tr = []) ∨
     (mapLookup s.svis (canonicalName env req) = none ∧
      obj = { req.svi with
              name := canonicalName env req,
              status := some { operStatus := SviOperStatus.up } } ∧
      s1 = { s with svis := mapInsert s.svis (canonicalName env req) obj })) := by
  unfold CreateSvi at h
  by_cases h1 : env.requiredOk = false
  · rw [if_pos h1] at h; simp at h
  rw [if_neg h1] at h
  by_cases h2 : req.sviId ≠ "" ∧ env.settable req.sviId = false
  · rw [if_pos h2] at h; simp at h
  rw [if_neg h2] at h
  refine ⟨by simpa using h1, h2, ?_⟩
  cases hl : mapLookup s.svis (canonicalName env req) with
  | some o =>
    rw [hl] at h
    simp only [Prod.mk.injEq] at h
    obtain ⟨ho, hs, ht⟩ := h
    cases ho
    exact Or.inl ⟨rfl, hs.symm, ht.symm⟩
  | none =>
    rw [hl] at h
    cases hc : createNew env s { req.svi with name := canonicalName env req }
        (createRid env req) with
    | mk r tr2 =>
      cases r with
      | error e => rw [hc] at h; simp at h
      | ok resp =>
        rw [hc] at h
        simp only [Prod.mk.injEq] at h
        obtain ⟨ho, hs, ht⟩ := h
        cases ho
        have hr := createNew_ok env s _ _ _ _ hc
        exact Or.inr ⟨rfl, hr, hs.symm⟩

/-- No call issued by the address-assignment loop is a link-creation call. -/
theorem addrLoop_no_linkAdd (env : Env) (rid : String) (gs : List IpPfx) :
    (((addrLoop env rid gs).2).all fun c => !c.isLinkAdd) = true := by
  induction gs with
  | nil => rfl
  | cons g gs ih =>
    simp only [addrLoop]
    split
    · simpa [KernelCall.isLinkAdd] using ih
    · rfl

/-- No MAC-assignment call is a link-creation call. -/
theorem macCalls_no_linkAdd (rid : String) (mac : List Nat) :
    ((macCalls rid mac).all fun c => !c.isLinkAdd) = true := by
  unfold macCalls
  split <;> rfl

/-- No call issued by the kernel-facing create sequence is a link-creation
call. -/
theorem createNew_no_linkAdd (env : Env) (s : Server) (svi : Svi) (rid : String) :
    (((createNew env s svi rid).2).all fun c => !c.isLinkAdd) = true := by
  have ha := addrLoop_no_linkAdd env rid svi.spec.gwIpPrefixes
  have hm := macCalls_no_linkAdd rid svi.spec.macAddress
  simp only [createNew]
  repeat' split
  all_goals simp_all [KernelCall.isLinkAdd, List.all_append]

/-! Claim theorems. -/

/-- C1: `CreateSvi` never instructs the kernel to create the VLAN
sub-interface: across all environments, states and requests no call of its
kernel trace is a link-creation call — in particular the successful create
of `svi0` issues VLAN admission, MAC assignment, address assignment,
master attachment and link-up against the (never created) link, as its
full trace shows.  This contradicts the spec's link-creation step (the
source's own `ip link add` comment documents the intended call). -/
theorem createSvi_never_creates_link :
    (∀ (env : Env) (s : Server) (req : CreateSviRequest),
      (((CreateSvi env s req).2.2).all fun c => !c.isLinkAdd) = true) ∧
    CreateSvi envAll testServer testCreateReq = (.ok testSviObj, testServer1, testTrace) := by
  constructor
  · intro env s req
    have hcn := createNew_no_linkAdd env s { req.svi with name := canonicalName env req }
      (createRid env req)
    simp only [CreateSvi]
    repeat' split
    all_goals simp_all
  · rfl

/-- C5 counterexample: the resolver discards its collection argument, so for
the collection `bridges` the produced name's collection segment is `svis`,
not `bridges` as the claim requires. -/
theorem resourceIDToFullName_collection_counterexample :
    resourceIDToFullName "bridges" "opi-bridge9" =
      "//network.opiproject.org/svis/opi-bridge9" ∧
    resourceIDToFullName "bridges" "opi-bridge9" ≠
      "//network.opiproject.org/bridges/opi-bridge9" := by
  exact ⟨rfl, by decide⟩

/-- C5 (amended): `resourceIDToFullName` is a pure, total string composition
that ignores its collection argument: for every collection and short ID it
produces `//network.opiproject.org/svis/<shortID>`. -/
theorem resourceIDToFullName_const_collection :
    (∀ (c1 c2 rid : String),
      resourceIDToFullName c1 rid = resourceIDToFullName c2 rid) ∧
    (∀ (c rid : String),
      resourceIDToFullName c rid = "//network.opiproject.org/svis/" ++ rid) :=
  ⟨fun _ _ _ => rfl, fun _ _ => rfl⟩

/-- C8: deleting a name with no registry entry succeeds exactly when
`allowMissing` is set and fails with not-found otherwise; either way no
kernel call is issued and the server (hence the registry) is unchanged. -/
theorem deleteSvi_absent (env : Env) (s : Server) (req : DeleteSviRequest)
    (h1 : env.requiredOk = true) (h2 : env.validName req.name = true)
    (h3 : mapLookup s.svis req.name = none) :
    DeleteSvi env s req =
      ((if req.allowMissing = true then Except.ok ()
        else Except.error (Err.notFound req.name)), s, []) := by
  cases hA : req.allowMissing <;> simp [DeleteSvi, h1, h2, h3, hA]

/-- C8 witness: on `testServer` (which holds no SVIs) deleting an absent
name succeeds with `allowMissing` and fails with not-found without it. -/
theorem deleteSvi_absent_witness :
    DeleteSvi envAll testServer { name := testSviName, allowMissing := true } =
      (Except.ok (), testServer, []) ∧
    DeleteSvi envAll testServer { name := testSviName, allowMissing := false } =
      (Except.error (Err.notFound testSviName), testServer, []) :=
  ⟨deleteSvi_absent envAll testServer { name := testSviName, allowMissing := true }
      rfl rfl rfl,
   deleteSvi_absent envAll testServer { name := testSviName, allowMissing := false }
      rfl rfl rfl⟩

/-- C7: when a name is registered but the backing kernel link (looked up by
the short ID, `path.Base` of the stored name) does not exist, `GetSvi`
fails with not-found, the server is returned unchanged and the registry
entry is still present. -/
theorem getSvi_stale_link (env : Env) (s : Server) (req : GetSviRequest) (obj : Svi)
    (h1 : env.requiredOk = true) (h2 : env.validName req.name = true)
    (h3 : mapLookup s.svis req.name = some obj)
    (h4 : env.kernelOk (KernelCall.linkByName (pathBase obj.name)) = false) :
    GetSvi env s req =
      (Except.error (Err.notFound (pathBase obj.name)), s,
       [KernelCall.linkByName (pathBase obj.name)]) ∧
    mapLookup s.svis req.name = some obj := by
  refine ⟨?_, h3⟩
  simp only [GetSvi, h1, h2, h3, h4]
  simp

/-- C7 witness: `svi0` is registered in `testServer1` but its kernel link is
absent in `envNoSviLink`, so `GetSvi` fails with not-found while the entry
stays. -/
theorem getSvi_stale_link_witness :
    GetSvi envNoSviLink testServer1 { name := testSviName } =
      (Except.error (Err.notFound (pathBase testSviObj.name)), testServer1,
       [KernelCall.linkByName (pathBase testSviObj.name)]) ∧
    mapLookup testServer1.svis testSviName = some testSviObj :=
  getSvi_stale_link envNoSviLink testServer1 { name := testSviName } testSviObj
    rfl rfl rfl rfl

/-- C2: a second `CreateSvi` with the same environment and request after a
successful one returns exactly the object the first call left stored, with
the server unchanged and an empty kernel trace — so the kernel sequence
runs at most once across the two calls. -/
theorem createSvi_idempotent (env : Env) (s : Server) (req : CreateSviRequest)
    (obj : Svi) (s1 : Server) (tr : List KernelCall)
    (h : CreateSvi env s req = (.ok obj, s1, tr)) :
    CreateSvi env s1 req = (.ok obj, s1, []) := by
  obtain ⟨h1, h2, hcase⟩ := createSvi_ok_cases env s req obj s1 tr h
  rcases hcase with ⟨hl, rfl, rfl⟩ | ⟨hl, hobj, rfl⟩
  · simp [CreateSvi, h1, h2, hl]
  · have hl1 : mapLookup (mapInsert s.svis (canonicalName env req) obj)
        (canonicalName env req) = some obj := mapLookup_insert _ _ _
    simp [CreateSvi, h1, h2, hl1]

/-- C2 witness: re-running the successful `svi0` create on the resulting
server returns the stored object with no kernel calls. -/
theorem createSvi_idempotent_witness :
    CreateSvi envAll testServer1 testCreateReq = (.ok testSviObj, testServer1, []) :=
  createSvi_idempotent envAll testServer testCreateReq testSviObj testServer1 testTrace rfl

/-- C3: `CreateSvi` writes the registry only on full success — every error
outcome leaves the server untouched; and a success on a fresh canonical
name returns the input spec renamed to the canonical name with status UP
and stores exactly that object under the canonical name. -/
theorem createSvi_commit (env : Env) (s : Server) (req : CreateSviRequest) :
    (∀ e s1 tr, CreateSvi env s req = (.error e, s1, tr) → s1 = s) ∧
    (∀ obj s1 tr, CreateSvi env s req = (.ok obj, s1, tr) →
      mapLookup s.svis (canonicalName env req) = none →
      obj.name = canonicalName env req ∧ obj.spec = req.svi.spec ∧
      obj.status = some { operStatus := SviOperStatus.up } ∧
      s1.svis = mapInsert s.svis (canonicalName env req) obj) := by
  constructor
  · intro e s1 tr h
    simp only [CreateSvi] at h
    repeat' split at h
    all_goals simp only [Prod.mk.injEq] at h
    all_goals simp_all
  · intro obj s1 tr h hfresh
    obtain ⟨h1, h2, hcase⟩ := createSvi_ok_cases env s req obj s1 tr h
    rcases hcase with ⟨hl, _, _⟩ | ⟨hl, hobj, hs⟩
    · rw [hfresh] at hl; cases hl
    · subst hobj
      exact ⟨rfl, rfl, rfl, by rw [hs]⟩

/-- C3 witness: a failed create (required-fields validation rejects the
request) leaves the server unchanged, and the successful `svi0` create
stores and returns the canonical-named copy of the request spec with
status UP. -/
theorem createSvi_commit_witness :
    testServer = testServer ∧
    (testSviObj.name = canonicalName envAll testCreateReq ∧
     testSviObj.spec = testCreateReq.svi.spec ∧
     testSviObj.status = some { operStatus := SviOperStatus.up } ∧
     testServer1.svis = mapInsert testServer.svis
       (canonicalName envAll testCreateReq) testSviObj) :=
  ⟨(createSvi_commit envReqFail testServer testCreateReq).1
      (Err.invalidArgument "required fields") testServer [] rfl,
   (createSvi_commit envAll testServer testCreateReq).2
      testSviObj testServer1 testTrace rfl rfl⟩

/-- C4 counterexample: with the bridge registered but the VRF absent,
`CreateSvi` returns the missing-VRF not-found error only after issuing
three kernel mutations (VLAN admission, MAC assignment, address
assignment), refuting the claim that no kernel mutations are issued before
the missing-VRF error is returned. -/
theorem createSvi_missing_vrf_mutates :
    CreateSvi envAll serverNoVrf testCreateReq =
      (.error (.notFound testVrfName), serverNoVrf,
       [KernelCall.linkByName "br-tenant",
        KernelCall.bridgeVlanAdd "br-tenant" 22 false false true false,
        KernelCall.linkSetHardwareAddr "svi0" [170, 187, 204, 0, 0, 65],
        KernelCall.addrAdd "svi0" [10, 0, 0, 1] 24]) ∧
    (((CreateSvi envAll serverNoVrf testCreateReq).2.2.filter
        fun c => c.isMutation).length = 3) :=
  ⟨rfl, rfl⟩

/-- C4 (amended): a create referencing an unregistered bridge name fails
with not-found having issued no kernel mutation (only the tenant-bridge
lookup); a create referencing an unregistered VRF name fails with
not-found with the registry unchanged, but only after the VLAN admission,
the optional MAC assignment and the gateway-address assignments have been
issued (and before any master-attach or link-up call). -/
theorem createSvi_missing_ref (env : Env) (s : Server) (req : CreateSviRequest)
    (h1 : env.requiredOk = true)
    (h2 : ¬(req.sviId ≠ "" ∧ env.settable req.sviId = false))
    (h3 : mapLookup s.svis (canonicalName env req) = none)
    (h4 : env.kernelOk (KernelCall.linkByName tenantbridgeName) = true)
    (h5 : env.validName req.svi.spec.logicalBridge = true) :
    (mapLookup s.bridges req.svi.spec.logicalBridge = none →
      CreateSvi env s req =
        (.error (.notFound req.svi.spec.logicalBridge), s,
         [KernelCall.linkByName tenantbridgeName])) ∧
    (∀ bo tra,
      mapLookup s.bridges req.svi.spec.logicalBridge = some bo →
      env.kernelOk (KernelCall.bridgeVlanAdd tenantbridgeName
        (bo.spec.vlanId % 65536) false false true false) = true →
      (req.svi.spec.macAddress ≠ [] →
        env.kernelOk (KernelCall.linkSetHardwareAddr (createRid env req)
          req.svi.spec.macAddress) = true) →
      addrLoop env (createRid env req) req.svi.spec.gwIpPrefixes = (Except.ok (), tra) →
      env.validName req.svi.spec.vrf = true →
      mapLookup s.vrfs req.svi.spec.vrf = none →
      CreateSvi env s req =
        (.error (.notFound req.svi.spec.vrf), s,
         [KernelCall.linkByName tenantbridgeName,
          KernelCall.bridgeVlanAdd tenantbridgeName
            (bo.spec.vlanId % 65536) false false true false]
         ++ macCalls (createRid env req) req.svi.spec.macAddress ++ tra)) := by
  constructor
  · intro hb
    simp [CreateSvi, createNew, h1, h2, h3, h4, h5, hb]
  · intro bo tra hb hvadd hmac ha hv hvrf
    have hmc : ¬(req.svi.spec.macAddress ≠ [] ∧
        env.kernelOk (KernelCall.linkSetHardwareAddr (createRid env req)
          req.svi.spec.macAddress) = false) := by
      rintro ⟨hne, hf⟩
      rw [hmac hne] at hf
      cases hf
    simp [CreateSvi, createNew, h1, h2, h3, h4, h5, hb, hvadd, hmc, ha, hv, hvrf]

/-- C4 witness: with the bridge registry emptied, the `svi0` create fails
without mutations; with the VRF registry emptied, it fails only after the
VLAN admission, MAC assignment and address assignment. -/
theorem createSvi_missing_ref_witness :
    CreateSvi envAll serverNoBridge testCreateReq =
      (.error (.notFound testLogicalBridgeName), serverNoBridge,
       [KernelCall.linkByName tenantbridgeName]) ∧
    CreateSvi envAll serverNoVrf testCreateReq =
      (.error (.notFound testVrfName), serverNoVrf,
       [KernelCall.linkByName tenantbridgeName,
        KernelCall.bridgeVlanAdd tenantbridgeName (22 % 65536) false false true false]
       ++ macCalls (createRid envAll testCreateReq) testSviSpec.macAddress
       ++ [KernelCall.addrAdd "svi0" [10, 0, 0, 1] 24]) :=
  ⟨(createSvi_missing_ref envAll serverNoBridge testCreateReq rfl
      (by rintro ⟨-, hf⟩; simp [envAll] at hf) rfl rfl rfl).1 rfl,
   (createSvi_missing_ref envAll serverNoVrf testCreateReq rfl
      (by rintro ⟨-, hf⟩; simp [envAll] at hf) rfl rfl rfl).2 testLogicalBridge
      [KernelCall.addrAdd "svi0" [10, 0, 0, 1] 24]
      rfl rfl (fun _ => rfl) rfl rfl rfl⟩

/-- C6: after a successful create on a fresh canonical name, a get on that
name (in any environment whose validations pass and where the backing
kernel link exists) returns a resource carrying the original spec's MAC
address, BGP flag and remote AS, with status UP. -/
theorem createSvi_get_roundtrip (env env' : Env) (s : Server) (req : CreateSviRequest)
    (obj : Svi) (s1 : Server) (tr : List KernelCall)
    (hc : CreateSvi env s req = (.ok obj, s1, tr))
    (hfresh : mapLookup s.svis (canonicalName env req) = none)
    (h1 : env'.requiredOk = true)
    (h2 : env'.validName (canonicalName env req) = true)
    (h3 : env'.kernelOk (KernelCall.linkByName (pathBase obj.name)) = true) :
    GetSvi env' s1 { name := canonicalName env req } =
      (.ok { name := canonicalName env req,
             spec := { logicalBridge := "", vrf := "",
                       macAddress := req.svi.spec.macAddress,
                       gwIpPrefixes := [],
                       enableBgp := req.svi.spec.enableBgp,
                       remoteAs := req.svi.spec.remoteAs },
             status := some { operStatus := SviOperStatus.up } },
       s1, [KernelCall.linkByName (pathBase obj.name)]) := by
  obtain ⟨_, _, hcase⟩ := createSvi_ok_cases env s req obj s1 tr hc
  rcases hcase with ⟨hl, _, _⟩ | ⟨_, hobj, hs⟩
  · rw [hfresh] at hl; cases hl
  · subst hobj
    subst hs
    have hl1 := mapLookup_insert s.svis (canonicalName env req)
      { req.svi with
        name := canonicalName env req,
        status := some { operStatus := SviOperStatus.up } }
    simp [GetSvi, h1, h2, h3, hl1]

/-- C6 witness: creating `svi0` on `testServer` and getting its canonical
name returns the MAC, BGP flag and remote AS of `testSviSpec` with status
UP. -/
theorem createSvi_get_roundtrip_witness :
    GetSvi envAll testServer1 { name := canonicalName envAll testCreateReq } =
      (.ok { name := canonicalName envAll testCreateReq,
             spec := { logicalBridge := "", vrf := "",
                       macAddress := testCreateReq.svi.spec.macAddress,
                       gwIpPrefixes := [],
                       enableBgp := testCreateReq.svi.spec.enableBgp,
                       remoteAs := testCreateReq.svi.spec.remoteAs },
             status := some { operStatus := SviOperStatus.up } },
       testServer1, [KernelCall.linkByName (pathBase testSviObj.name)]) :=
  createSvi_get_roundtrip envAll envAll testServer testCreateReq testSviObj
    testServer1 testTrace rfl rfl rfl rfl rfl

/-- C9: deleting a registered name resolves the kernel link by the short ID
(`path.Base` of the stored name) first — a missing link is a terminal
not-found — then brings the link down, then deletes it, in that order; on
any kernel-step failure the server (hence the registry entry) is unchanged,
and only when all three steps succeed is the entry removed. -/
theorem deleteSvi_present (env : Env) (s : Server) (req : DeleteSviRequest) (obj : Svi)
    (h1 : env.requiredOk = true) (h2 : env.validName req.name = true)
    (h3 : mapLookup s.svis req.name = some obj) :
    (env.kernelOk (KernelCall.linkByName (pathBase obj.name)) = false →
      DeleteSvi env s req =
        (.error (.notFound (pathBase obj.name)), s,
         [KernelCall.linkByName (pathBase obj.name)])) ∧
    (env.kernelOk (KernelCall.linkByName (pathBase obj.name)) = true →
     env.kernelOk (KernelCall.linkSetDown (pathBase obj.name)) = false →
      DeleteSvi env s req =
        (.error (.kernelFail (KernelCall.linkSetDown (pathBase obj.name))), s,
         [KernelCall.linkByName (pathBase obj.name),
          KernelCall.linkSetDown (pathBase obj.name)])) ∧
    (env.kernelOk (KernelCall.linkByName (pathBase obj.name)) = true →
     env.kernelOk (KernelCall.linkSetDown (pathBase obj.name)) = true →
     env.kernelOk (KernelCall.linkDel (pathBase obj.name)) = false →
      DeleteSvi env s req =
        (.error (.kernelFail (KernelCall.linkDel (pathBase obj.name))), s,
         [KernelCall.linkByName (pathBase obj.name),
          KernelCall.linkSetDown (pathBase obj.name),
          KernelCall.linkDel (pathBase obj.name)])) ∧
    (env.kernelOk (KernelCall.linkByName (pathBase obj.name)) = true →
     env.kernelOk (KernelCall.linkSetDown (pathBase obj.name)) = true →
     env.kernelOk (KernelCall.linkDel (pathBase obj.name)) = true →
      DeleteSvi env s req =
        (.ok (), { s with svis := mapRemove s.svis obj.name },
         [KernelCall.linkByName (pathBase obj.name),
          KernelCall.linkSetDown (pathBase obj.name),
          KernelCall.linkDel (pathBase obj.name)])) := by
  refine ⟨?_, ?_, ?_, ?_⟩ <;> intros <;> simp [DeleteSvi, h1, h2, h3, *]

/-- C9 witness: deleting the registered `svi0` with every kernel call
succeeding issues link-lookup, link-down and link-delete in order and
removes the entry. -/
theorem deleteSvi_present_witness :
    DeleteSvi envAll testServer1 { name := testSviName, allowMissing := false } =
      (.ok (), { testServer1 with svis := mapRemove testServer1.svis testSviObj.name },
       [KernelCall.linkByName (pathBase testSviObj.name),
        KernelCall.linkSetDown (pathBase testSviObj.name),
        KernelCall.linkDel (pathBase testSviObj.name)]) :=
  (deleteSvi_present envAll testServer1 { name := testSviName, allowMissing := false }
      testSviObj rfl rfl rfl).2.2.2 rfl rfl rfl

/-- Closed form of `limitPagination`: the Go slice bound check against
`min (offset + size) length`, with `hasMoreElements` deciding whether the
clamp fired. -/
theorem limitPagination_eq {α : Type} (xs : List α) (offset size : Int) :
    limitPagination xs offset size =
      if 0 ≤ offset ∧ offset ≤ min (offset + size) (xs.length : Int) ∧
          min (offset + size) (xs.length : Int) ≤ (xs.length : Int) then
        some ((xs.take (min (offset + size) (xs.length : Int)).toNat).drop offset.toNat,
              decide (offset + size < (xs.length : Int)))
      else none := by
  by_cases hlt : offset + size < (xs.length : Int)
  · have hmin : min (offset + size) (xs.length : Int) = offset + size :=
      min_eq_left (by omega)
    simp only [limitPagination, goSlice, hmin]
    rw [if_pos hlt]
    by_cases hC : 0 ≤ offset ∧ offset ≤ offset + size ∧ offset + size ≤ (xs.length : Int)
    · rw [if_pos hC, if_pos hC]
    · rw [if_neg hC, if_neg hC]
  · have hmin : min (offset + size) (xs.length : Int) = (xs.length : Int) :=
      min_eq_right (by omega)
    simp only [limitPagination, goSlice, hmin]
    rw [if_neg hlt]
    by_cases hC : 0 ≤ offset ∧ offset ≤ (xs.length : Int) ∧
        (xs.length : Int) ≤ (xs.length : Int)
    · rw [if_pos hC, if_pos hC]
    · rw [if_neg hC, if_neg hC]

/-- C10: with a nonnegative size, `limitPagination` is defined (does not
panic) exactly when `0 ≤ offset ≤ length`; in that case it returns the
elements from `offset` up to `min (offset + size) length` and reports
`hasMoreElements` exactly when `offset + size < length`; and an offset
beyond the list length does reach the out-of-range slice (panic) branch. -/
theorem limitPagination_inbounds :
    (∀ (α : Type) (xs : List α) (offset size : Int), 0 ≤ size →
      (((limitPagination xs offset size).isSome = true) ↔
        (0 ≤ offset ∧ offset ≤ (xs.length : Int))) ∧
      (∀ ys hasMore, limitPagination xs offset size = some (ys, hasMore) →
        ys = (xs.take (min (offset + size) (xs.length : Int)).toNat).drop offset.toNat ∧
        (hasMore = true ↔ offset + size < (xs.length : Int)))) ∧
    limitPagination ([0] : List Nat) 2 1 = none := by
  constructor
  · intro α xs offset size hsz
    rw [limitPagination_eq]
    constructor
    · by_cases hC : 0 ≤ offset ∧ offset ≤ min (offset + size) (xs.length : Int) ∧
          min (offset + size) (xs.length : Int) ≤ (xs.length : Int)
      · rw [if_pos hC]
        simp only [Option.isSome_some]
        constructor
        · intro _
          omega
        · intro _
          trivial
      · rw [if_neg hC]
        simp only [Option.isSome_none]
        constructor
        · intro hfalse
          cases hfalse
        · intro hb
          exact absurd ⟨hb.1, by omega, by omega⟩ hC
    · intro ys hasMore h
      by_cases hC : 0 ≤ offset ∧ offset ≤ min (offset + size) (xs.length : Int) ∧
          min (offset + size) (xs.length : Int) ≤ (xs.length : Int)
      · rw [if_pos hC] at h
        simp only [Option.some.injEq, Prod.mk.injEq] at h
        obtain ⟨hys, hhm⟩ := h
        refine ⟨hys.symm, ?_⟩
        rw [← hhm]
        simp [decide_eq_true_eq]
      · rw [if_neg hC] at h
        cases h
  · rfl

/-- C10 witness: page `[1, 2)` of a three-element list is defined, and
offset 2 on a one-element list reaches the panic branch. -/
theorem limitPagination_inbounds_witness :
    (limitPagination ([10, 20, 30] : List Nat) 1 1).isSome = true ∧
    limitPagination ([0] : List Nat) 2 1 = none :=
  ⟨((limitPagination_inbounds.1 Nat [10, 20, 30] 1 1 (by decide)).1).mpr (by decide),
   limitPagination_inbounds.2⟩

end OpiEvpn
